import Mathlib

/-!
Verification development for the AI-Creative-Suite front end.

The TypeScript source is shallowly embedded: each service operation and UI
event handler becomes a pure Lean function over explicit state, with the
external AI service, the browser fetch, and the event-loop scheduling
supplied as oracle parameters.  Asynchronous effects (polling delays,
service calls, asset fetches) are recorded in explicit event traces so that
temporal properties (poll counts, ordering, credential reuse) can be stated
as facts about the trace.
-/

/-- Association-list lookup, modelling JavaScript object property access
(`m[k]`, yielding `undefined` when absent). -/
def alookup {α : Type} : List (String × α) → String → Option α
  | [], _ => none
  | p :: rest, k => if p.1 = k then some p.2 else alookup rest k

/-- Association-list update, modelling the JavaScript object-spread update
idiom (replace the binding for `k` when present, append it otherwise). -/
def aupsert {α : Type} : List (String × α) → String → α → List (String × α)
  | [], k, v => [(k, v)]
  | p :: rest, k, v => if p.1 = k then (k, v) :: rest else p :: aupsert rest k v

theorem alookup_aupsert_self {α : Type} (m : List (String × α)) (k : String) (v : α) :
    alookup (aupsert m k v) k = some v := by
  induction m with
  | nil => simp [aupsert, alookup]
  | cons p rest ih =>
    by_cases h : p.1 = k
    · simp [aupsert, alookup, h]
    · simp [aupsert, alookup, h, ih]

theorem alookup_aupsert_ne {α : Type} (m : List (String × α)) (k k' : String) (v : α)
    (h : k' ≠ k) : alookup (aupsert m k v) k' = alookup m k' := by
  have h2 : ¬(k = k') := fun hh => h hh.symm
  induction m with
  | nil => simp [aupsert, alookup, h2]
  | cons p rest ih =>
    by_cases hp : p.1 = k
    · simp [aupsert, alookup, hp, h2]
    · by_cases hp' : p.1 = k'
      · simp [aupsert, alookup, hp, hp', h]
      · simp [aupsert, alookup, hp, hp', ih]

/-- JavaScript string truthiness for an optional string argument:
present and non-empty. -/
def truthy : Option String → Bool
  | none => false
  | some s => !s.isEmpty

namespace GeminiService

/-- One remote call issued by the Generation Client, with the operation
invoked on the external service and the main client-supplied input that was
shipped in the request. -/
structure SvcCall where
  op : String
  input : String
deriving DecidableEq, Repr

/-- The fixed instruction text sent by generateIdeas (geminiService, the
prompt literal inside the function body). -/
def ideasPrompt : String :=
  "Generate a list of 5 creative, visually descriptive, and unique prompts suitable for an AI image or video generator."

/-- Embedding of generateIdeas.  The oracle resp models the external call:
an error is a transport or JSON-parse fault; ok none is a response whose
parsed body lacks a prompts array; ok (some l) is a well-shaped response.
Both the fault and the shape failure are raised inside the try block and
are replaced by the fixed catch-block message.  Returns the result and the
list of service calls issued. -/
def generateIdeas (resp : Except String (Option (List String))) :
    Except String (List String) × List SvcCall :=
  match resp with
  | .error _ =>
      (.error "Failed to communicate with the AI model for idea generation.",
       [⟨"generateContent", ideasPrompt⟩])
  | .ok none =>
      (.error "Failed to communicate with the AI model for idea generation.",
       [⟨"generateContent", ideasPrompt⟩])
  | .ok (some l) => (.ok l, [⟨"generateContent", ideasPrompt⟩])

/-- Embedding of generateStoryFromImage.  The request carries the image part
(recorded as the call input) plus a fixed instruction; any service fault is
replaced by the fixed catch-block message. -/
def generateStoryFromImage (base64ImageData mimeType : String)
    (resp : Except String String) : Except String String × List SvcCall :=
  match resp with
  | .error _ =>
      (.error "Failed to communicate with the AI model.",
       [⟨"generateContent", base64ImageData ++ ":" ++ mimeType⟩])
  | .ok t => (.ok t, [⟨"generateContent", base64ImageData ++ ":" ++ mimeType⟩])

/-- Embedding of generateSpeechFromText.  The oracle yields the optional
inline audio payload of the response; a missing payload raises inside the
try block and is replaced by the fixed catch-block message, exactly like a
transport fault. -/
def generateSpeechFromText (text : String) (resp : Except String (Option String)) :
    Except String String × List SvcCall :=
  match resp with
  | .error _ =>
      (.error "Failed to communicate with the TTS AI model.",
       [⟨"generateContent", "Read this with an expressive, narrative voice: " ++ text⟩])
  | .ok none =>
      (.error "Failed to communicate with the TTS AI model.",
       [⟨"generateContent", "Read this with an expressive, narrative voice: " ++ text⟩])
  | .ok (some audio) =>
      (.ok audio, [⟨"generateContent", "Read this with an expressive, narrative voice: " ++ text⟩])

/-- Embedding of generateImageFromPrompt.  The oracle error carries
some msg for a thrown Error (rethrown unchanged by the catch block) and
none for a non-Error throw (replaced by the fixed unknown-error message);
an ok response carries the imageBytes field, empty when the service
returned no data (which raises the no-image Error, itself rethrown). -/
def generateImageFromPrompt (prompt aspectRatio : String)
    (resp : Except (Option String) String) : Except String String × List SvcCall :=
  match resp with
  | .error (some m) => (.error m, [⟨"generateImages", prompt⟩])
  | .error none =>
      (.error "An unknown error occurred during image generation.",
       [⟨"generateImages", prompt⟩])
  | .ok bytes =>
      if bytes.isEmpty then
        (.error "Image generation succeeded, but no image data was returned.",
         [⟨"generateImages", prompt⟩])
      else
        (.ok ("data:image/jpeg;base64," ++ bytes), [⟨"generateImages", prompt⟩])

/-- The operation value returned by the video service: the done flag and
the optional result locator response.generatedVideos[0].video.uri. -/
structure VideoOperation where
  done : Bool
  uri : Option String
deriving DecidableEq, Repr

/-- The browser response to the asset download fetch, together with the
object URL the host would mint for the downloaded blob. -/
structure FetchResponse where
  ok : Bool
  statusText : String
  body : String
  blobUrl : String
deriving DecidableEq, Repr

/-- The submitted video request payload built by generateVideo. -/
structure VideoRequestPayload where
  model : String
  prompt : String
  aspectRatio : String
  durationSeconds : Nat
  personGeneration : String
  image : Option (String × String)
deriving DecidableEq, Repr

/-- Request shaping of generateVideo: the start image is attached only when
both optional arguments are truthy (present and non-empty), mirroring the
JavaScript conditional on the two optional parameters. -/
def mkVideoRequest (prompt aspectRatio : String) (duration : Nat) (allowPeople : Bool)
    (base64Image mimeType : Option String) : VideoRequestPayload :=
  { model := "veo-2.0-generate-001"
    prompt := prompt
    aspectRatio := aspectRatio
    durationSeconds := duration
    personGeneration := if allowPeople then "ALLOW_ALL" else "DISALLOW_ALL"
    image :=
      if truthy base64Image && truthy mimeType then
        some (base64Image.getD "", mimeType.getD "")
      else none }

/-- Observable effects of one generateVideo run. -/
inductive VidEvent
  | submit (payload : VideoRequestPayload) (key : String)
  | sleepMs (ms : Nat)
  | poll (key : String)
  | fetchAsset (url : String) (key : String)
deriving DecidableEq, Repr

/-- Environment oracle for one generateVideo run: the ambient API key at
capture time, the operation returned by the submission, the successive
operations returned by the status polls, and the asset-fetch response. -/
structure VideoEnv where
  apiKey : Option String
  submitResult : Except String VideoOperation
  pollResults : List VideoOperation
  fetchResp : FetchResponse

/-- The polling while-loop of generateVideo: the head of the list is the
operation currently held; while its done flag is false the loop sleeps a
fixed 10000 ms, then re-queries with the captured key, wholesale replacing
the operation with the next oracle entry.  Yields none when the oracle is
exhausted while still polling. -/
def pollLoop (key : String) : List VideoOperation → Option VideoOperation × List VidEvent
  | [] => (none, [])
  | op :: rest =>
    if op.done then (some op, [])
    else
      let r := pollLoop key rest
      (r.1, VidEvent.sleepMs 10000 :: VidEvent.poll key :: r.2)

/-- Embedding of generateVideo: capture the key once, fail when it is
absent or empty, submit the shaped request, run the poll loop with the
captured key, then check the result locator and download the asset with the
same captured key.  Thrown Error values propagate unchanged through the
catch block.  The first component is none when the poll oracle was
exhausted (run still in flight). -/
def generateVideo (env : VideoEnv) (prompt aspectRatio : String) (duration : Nat)
    (allowPeople : Bool) (base64Image mimeType : Option String) :
    Option (Except String String) × List VidEvent :=
  match env.apiKey with
  | none => (some (.error "API key is not available."), [])
  | some key =>
    if key.isEmpty then (some (.error "API key is not available."), [])
    else
      let payload := mkVideoRequest prompt aspectRatio duration allowPeople base64Image mimeType
      match env.submitResult with
      | .error m => (some (.error m), [VidEvent.submit payload key])
      | .ok op0 =>
        let pr := pollLoop key (op0 :: env.pollResults)
        match pr.1 with
        | none => (none, VidEvent.submit payload key :: pr.2)
        | some opf =>
          match opf.uri with
          | none =>
              (some (.error "Video generation succeeded, but no download link was provided."),
               VidEvent.submit payload key :: pr.2)
          | some link =>
            if link.isEmpty then
              (some (.error "Video generation succeeded, but no download link was provided."),
               VidEvent.submit payload key :: pr.2)
            else
              let url := link ++ "&key=" ++ key
              if env.fetchResp.ok then
                (some (.ok env.fetchResp.blobUrl),
                 VidEvent.submit payload key :: pr.2 ++ [VidEvent.fetchAsset url key])
              else
                (some (.error ("Failed to download video: " ++ env.fetchResp.statusText
                   ++ ". Details: " ++ env.fetchResp.body)),
                 VidEvent.submit payload key :: pr.2 ++ [VidEvent.fetchAsset url key])

/-- Number of submissions issued to the video service in a trace. -/
def countSubmits (tr : List VidEvent) : Nat :=
  tr.countP (fun e => match e with | VidEvent.submit _ _ => true | _ => false)

theorem pollLoop_spec (key : String) (fin : VideoOperation) (rest : List VideoOperation)
    (hfin : fin.done = true) :
    ∀ pre : List VideoOperation, (∀ op ∈ pre, op.done = false) →
      pollLoop key (pre ++ fin :: rest) =
        (some fin, (List.replicate pre.length [VidEvent.sleepMs 10000, VidEvent.poll key]).flatten) := by
  intro pre
  induction pre with
  | nil => intro _; simp [pollLoop, hfin]
  | cons op ps ih =>
    intro hpre
    have hop : op.done = false := hpre op (by simp)
    have hps : ∀ o ∈ ps, o.done = false := fun o ho => hpre o (by simp [ho])
    simp [pollLoop, hop, ih hps, List.replicate_succ]

theorem pollLoop_no_submit (key : String) (ops : List VideoOperation) :
    countSubmits (pollLoop key ops).2 = 0 := by
  induction ops with
  | nil => simp [pollLoop, countSubmits]
  | cons op rest ih =>
    by_cases h : op.done
    · simp [pollLoop, h, countSubmits]
    · simp only [pollLoop, h] at *
      simp [countSubmits, List.countP_cons] at *
      exact ih

end GeminiService

open GeminiService

/-- Claim C1: in a generateVideo run whose submitted operation reports
done = false exactly N times before reporting done = true, the poller
suspends for a fixed 10000 ms delay before each of the N re-queries,
issues exactly N intermediate polls, ends holding the freshly returned
completed operation, and every poll and the final asset fetch carry the
one credential captured at submission time.  The trace is computed
exactly: one submission, then N repetitions of sleep-then-poll with the
captured key, then one asset fetch with the same key. -/
theorem generateVideo_poll_count_and_fixed_key
    (env : VideoEnv) (p ar : String) (d : Nat) (ap : Bool)
    (b m : Option String) (key link : String)
    (op0 fin : VideoOperation)
    (pre rest : List VideoOperation)
    (hkey : env.apiKey = some key) (hk : key.isEmpty = false)
    (hsub : env.submitResult = .ok op0)
    (hops : op0 :: env.pollResults = pre ++ fin :: rest)
    (hpre : ∀ op ∈ pre, op.done = false) (hfin : fin.done = true)
    (huri : fin.uri = some link) (hlink : link.isEmpty = false)
    (hok : env.fetchResp.ok = true) :
    generateVideo env p ar d ap b m =
      (some (.ok env.fetchResp.blobUrl),
       VidEvent.submit (mkVideoRequest p ar d ap b m) key
         :: (List.replicate pre.length [VidEvent.sleepMs 10000, VidEvent.poll key]).flatten
         ++ [VidEvent.fetchAsset (link ++ "&key=" ++ key) key]) := by
  have hpl := pollLoop_spec key fin rest hfin pre hpre
  rw [← hops] at hpl
  simp [generateVideo, hkey, hk, hsub, hpl, huri, hlink, hok]

theorem generateVideo_poll_count_and_fixed_key_witness :
    generateVideo
      ⟨some "K", .ok ⟨false, none⟩, [⟨false, none⟩, ⟨true, some "http://v"⟩],
       ⟨true, "OK", "", "blob:1"⟩⟩
      "p" "16:9" 8 true none none =
      (some (.ok "blob:1"),
       VidEvent.submit (mkVideoRequest "p" "16:9" 8 true none none) "K"
         :: (List.replicate 2 [VidEvent.sleepMs 10000, VidEvent.poll "K"]).flatten
         ++ [VidEvent.fetchAsset ("http://v" ++ "&key=" ++ "K") "K"]) :=
  generateVideo_poll_count_and_fixed_key _ "p" "16:9" 8 true none none "K" "http://v"
    ⟨false, none⟩ ⟨true, some "http://v"⟩ [⟨false, none⟩, ⟨false, none⟩] []
    rfl rfl rfl rfl (by decide) rfl rfl rfl rfl

/-- Claim C4: when the operation completes with no result locator,
generateVideo fails with the no-download-link error and its trace contains
no asset fetch; and when the asset fetch answers with a non-success
status, generateVideo fails with an error carrying the response status
text and body. -/
theorem generateVideo_failure_paths
    (env : VideoEnv) (p ar : String) (d : Nat) (ap : Bool)
    (b m : Option String) (key : String)
    (op0 fin : VideoOperation)
    (pre rest : List VideoOperation)
    (hkey : env.apiKey = some key) (hk : key.isEmpty = false)
    (hsub : env.submitResult = .ok op0)
    (hops : op0 :: env.pollResults = pre ++ fin :: rest)
    (hpre : ∀ op ∈ pre, op.done = false) (hfin : fin.done = true) :
    (fin.uri = none →
      generateVideo env p ar d ap b m =
        (some (.error "Video generation succeeded, but no download link was provided."),
         VidEvent.submit (mkVideoRequest p ar d ap b m) key
           :: (List.replicate pre.length [VidEvent.sleepMs 10000, VidEvent.poll key]).flatten)
      ∧ ∀ u kk, VidEvent.fetchAsset u kk ∉ (generateVideo env p ar d ap b m).2)
    ∧ (∀ link, fin.uri = some link → link.isEmpty = false → env.fetchResp.ok = false →
        generateVideo env p ar d ap b m =
          (some (.error ("Failed to download video: " ++ env.fetchResp.statusText
             ++ ". Details: " ++ env.fetchResp.body)),
           VidEvent.submit (mkVideoRequest p ar d ap b m) key
             :: (List.replicate pre.length [VidEvent.sleepMs 10000, VidEvent.poll key]).flatten
             ++ [VidEvent.fetchAsset (link ++ "&key=" ++ key) key])) := by
  have hpl := pollLoop_spec key fin rest hfin pre hpre
  rw [← hops] at hpl
  constructor
  · intro huri
    have heq : generateVideo env p ar d ap b m =
        (some (.error "Video generation succeeded, but no download link was provided."),
         VidEvent.submit (mkVideoRequest p ar d ap b m) key
           :: (List.replicate pre.length [VidEvent.sleepMs 10000, VidEvent.poll key]).flatten) := by
      simp [generateVideo, hkey, hk, hsub, hpl, huri]
    refine ⟨heq, ?_⟩
    intro u kk hmem
    rw [heq] at hmem
    simp only [List.mem_cons] at hmem
    rcases hmem with h1 | h2
    · exact VidEvent.noConfusion h1
    · rcases List.mem_flatten.1 h2 with ⟨l, hl, hx⟩
      have hle := List.eq_of_mem_replicate hl
      subst hle
      simp at hx
  · intro link huri hlink hok
    simp [generateVideo, hkey, hk, hsub, hpl, huri, hlink, hok]

theorem generateVideo_failure_paths_witness :
    (generateVideo ⟨some "K", .ok ⟨false, none⟩, [⟨true, none⟩], ⟨true, "OK", "", "blob:1"⟩⟩
        "p" "16:9" 8 true none none =
      (some (.error "Video generation succeeded, but no download link was provided."),
       VidEvent.submit (mkVideoRequest "p" "16:9" 8 true none none) "K"
         :: (List.replicate 1 [VidEvent.sleepMs 10000, VidEvent.poll "K"]).flatten))
    ∧ (generateVideo ⟨some "K", .ok ⟨true, some "http://v"⟩, [],
         ⟨false, "Forbidden", "quota exceeded", "blob:1"⟩⟩ "p" "16:9" 8 true none none =
      (some (.error ("Failed to download video: " ++ "Forbidden"
         ++ ". Details: " ++ "quota exceeded")),
       VidEvent.submit (mkVideoRequest "p" "16:9" 8 true none none) "K"
         :: (List.replicate 0 [VidEvent.sleepMs 10000, VidEvent.poll "K"]).flatten
         ++ [VidEvent.fetchAsset ("http://v" ++ "&key=" ++ "K") "K"])) :=
  ⟨(generateVideo_failure_paths
      ⟨some "K", .ok ⟨false, none⟩, [⟨true, none⟩], ⟨true, "OK", "", "blob:1"⟩⟩
      "p" "16:9" 8 true none none "K"
      ⟨false, none⟩ ⟨true, none⟩ [⟨false, none⟩] []
      rfl rfl rfl rfl (by decide) rfl).1 rfl |>.1,
   (generateVideo_failure_paths
      ⟨some "K", .ok ⟨true, some "http://v"⟩, [], ⟨false, "Forbidden", "quota exceeded", "blob:1"⟩⟩
      "p" "16:9" 8 true none none "K"
      ⟨true, some "http://v"⟩ ⟨true, some "http://v"⟩ [] []
      rfl rfl rfl rfl (by decide) rfl).2 "http://v" rfl rfl rfl⟩

/-- Claim C9 counterexample: both optional start-image arguments are
provided (present as values), yet because the code tests JavaScript
truthiness rather than presence, an empty base64 string makes the request
go out with no start image, refuting the stated if-and-only-if. -/
theorem mkVideoRequest_provided_counterexample :
    (some "" : Option String).isSome = true
    ∧ (some "image/png" : Option String).isSome = true
    ∧ (mkVideoRequest "p" "16:9" 8 true (some "") (some "image/png")).image = none := by
  refine ⟨rfl, rfl, rfl⟩

/-- Claim C9 (amended): generateVideo includes a start image in the
submitted request if and only if both the base64 image bytes and the MIME
type arguments are provided and non-empty; if exactly one of the two is
supplied, or either is empty, the job is silently submitted with no start
image rather than failing — the run result does not depend on the
start-image arguments at all. -/
theorem mkVideoRequest_image_truthiness (p ar : String) (d : Nat) (ap : Bool)
    (b m : Option String) (env : VideoEnv) :
    (mkVideoRequest p ar d ap b m).image.isSome = (truthy b && truthy m)
    ∧ (generateVideo env p ar d ap b m).1 = (generateVideo env p ar d ap none none).1 := by
  constructor
  · by_cases h : truthy b && truthy m <;> simp [mkVideoRequest, h]
  · cases henv : env.apiKey with
    | none => simp [generateVideo, henv]
    | some key =>
      by_cases hk : key.isEmpty
      · simp [generateVideo, henv, hk]
      · cases hsub : env.submitResult with
        | error msg => simp [generateVideo, henv, hk, hsub]
        | ok op0 =>
          cases hpl : (pollLoop key (op0 :: env.pollResults)).1 with
          | none => simp [generateVideo, henv, hk, hsub, hpl]
          | some opf =>
            cases huri : opf.uri with
            | none => simp [generateVideo, henv, hk, hsub, hpl, huri]
            | some link =>
              by_cases hl : link.isEmpty
              · simp [generateVideo, henv, hk, hsub, hpl, huri, hl]
              · by_cases hok : env.fetchResp.ok <;>
                  simp [generateVideo, henv, hk, hsub, hpl, huri, hl, hok]

/-- Claim C5 counterexample: the Generation Client does not validate that
required inputs are non-empty — generateImageFromPrompt with an empty
prompt still issues the service call (and succeeds) — and the normalized
failure does not carry the underlying message: generateIdeas maps every
underlying fault to one fixed message that ignores it. -/
theorem generation_client_validation_counterexample :
    generateImageFromPrompt "" "16:9" (.ok "AAA")
      = (.ok "data:image/jpeg;base64,AAA", [⟨"generateImages", ""⟩])
    ∧ (generateIdeas (.error "boom")).1
        = .error "Failed to communicate with the AI model for idea generation."
    ∧ (generateIdeas (.error "some other fault")).1
        = .error "Failed to communicate with the AI model for idea generation." := by
  refine ⟨rfl, rfl, rfl⟩

/-- Claim C5 (amended): each of the five Generation Client operations
invokes the external service exactly once, with no internal retry (for
generateVideo, exactly one job submission; status polls are queries on the
same submission), and converts every failure into a single thrown error;
however, the client itself performs no non-empty validation of its inputs
(only generateVideo checks that a credential is present before
submitting), and the normalized error carries a fixed per-operation
message rather than uniformly the operation name plus underlying message —
generateIdeas, generateStoryFromImage and generateSpeechFromText discard
the underlying message, while generateImageFromPrompt rethrows the
underlying error unchanged. -/
theorem generation_client_single_invocation
    (rI : Except String (Option (List String)))
    (b64 mime : String) (rS : Except String String)
    (txt : String) (rT : Except String (Option String))
    (p ar : String) (rP : Except (Option String) String)
    (env : VideoEnv) (vp va : String) (d : Nat) (ap : Bool)
    (bi mi : Option String) (key : String)
    (hkey : env.apiKey = some key) (hk : key.isEmpty = false)
    (eI eS eT : String) :
    (generateIdeas rI).2.length = 1
    ∧ (generateStoryFromImage b64 mime rS).2.length = 1
    ∧ (generateSpeechFromText txt rT).2.length = 1
    ∧ (generateImageFromPrompt p ar rP).2.length = 1
    ∧ countSubmits (generateVideo env vp va d ap bi mi).2 = 1
    ∧ (generateIdeas (.error eI)).1
        = .error "Failed to communicate with the AI model for idea generation."
    ∧ (generateStoryFromImage b64 mime (.error eS)).1
        = .error "Failed to communicate with the AI model."
    ∧ (generateSpeechFromText txt (.error eT)).1
        = .error "Failed to communicate with the TTS AI model."
    ∧ (∀ msg : String,
        (generateImageFromPrompt p ar (.error (some msg))).1 = .error msg) := by
  refine ⟨?_, ?_, ?_, ?_, ?_, rfl, rfl, rfl, fun msg => rfl⟩
  · cases rI with
    | error e => rfl
    | ok o => cases o <;> rfl
  · cases rS <;> rfl
  · cases rT with
    | error e => rfl
    | ok o => cases o <;> rfl
  · cases rP with
    | error e => cases e <;> rfl
    | ok bytes => by_cases hb : bytes.isEmpty <;> simp [generateImageFromPrompt, hb]
  · have hns := pollLoop_no_submit key ((env.submitResult.toOption.getD ⟨true, none⟩) :: env.pollResults)
    cases hsub : env.submitResult with
    | error msg => simp [generateVideo, hkey, hk, hsub, countSubmits]
    | ok op0 =>
      have hns0 := pollLoop_no_submit key (op0 :: env.pollResults)
      unfold countSubmits at hns0
      cases hpl : (pollLoop key (op0 :: env.pollResults)).1 with
      | none =>
        simp [generateVideo, hkey, hk, hsub, hpl, countSubmits, List.countP_cons, hns0]
      | some opf =>
        cases huri : opf.uri with
        | none =>
          simp [generateVideo, hkey, hk, hsub, hpl, huri, countSubmits, List.countP_cons, hns0]
        | some link =>
          by_cases hl : link.isEmpty
          · simp [generateVideo, hkey, hk, hsub, hpl, huri, hl, countSubmits,
              List.countP_cons, hns0]
          · by_cases hok : env.fetchResp.ok <;>
              simp [generateVideo, hkey, hk, hsub, hpl, huri, hl, hok, countSubmits,
                List.countP_cons, List.countP_append, hns0]

theorem generation_client_single_invocation_witness :
    (generateIdeas (.ok (some ["x"]))).2.length = 1
    ∧ (generateStoryFromImage "B" "image/png" (.ok "story")).2.length = 1
    ∧ (generateSpeechFromText "hello" (.ok (some "AUDIO"))).2.length = 1
    ∧ (generateImageFromPrompt "p" "1:1" (.ok "IMG")).2.length = 1
    ∧ countSubmits (generateVideo
        ⟨some "K", .ok ⟨true, some "u"⟩, [], ⟨true, "OK", "", "blob:1"⟩⟩
        "vp" "16:9" 8 true none none).2 = 1
    ∧ (generateIdeas (.error "e1")).1
        = .error "Failed to communicate with the AI model for idea generation."
    ∧ (generateStoryFromImage "B" "image/png" (.error "e2")).1
        = .error "Failed to communicate with the AI model."
    ∧ (generateSpeechFromText "hello" (.error "e3")).1
        = .error "Failed to communicate with the TTS AI model."
    ∧ (∀ msg : String,
        (generateImageFromPrompt "p" "1:1" (.error (some msg))).1 = .error msg) :=
  generation_client_single_invocation (.ok (some ["x"])) "B" "image/png" (.ok "story")
    "hello" (.ok (some "AUDIO")) "p" "1:1" (.ok "IMG")
    ⟨some "K", .ok ⟨true, some "u"⟩, [], ⟨true, "OK", "", "blob:1"⟩⟩
    "vp" "16:9" 8 true none none "K" rfl rfl "e1" "e2" "e3"

namespace IdeaGenerator

/-- Per-prompt generated artifacts, one entry of the generatedContent map
(IdeaGenerator.tsx): optional image URL and optional video URL. -/
structure ContentEntry where
  image : Option String := none
  video : Option String := none
deriving DecidableEq, Repr

/-- Per-prompt in-flight flags, one entry of the generatingState map. -/
structure GenFlags where
  image : Bool := false
  video : Bool := false
deriving DecidableEq, Repr

/-- The two batch kinds of the batchJob state value. -/
inductive BatchType
  | images
  | videos
deriving DecidableEq, Repr

/-- The batchJob state value of IdeaGenerator: kind, progress, total. -/
structure BatchJob where
  type : BatchType
  progress : Nat
  total : Nat
deriving DecidableEq, Repr

/-- The React state of the IdeaGenerator component (the fields the
embedded handlers read or write). -/
structure IdeaState where
  isLoading : Bool := false
  error : String := ""
  ideas : List String := []
  isKeyReady : Bool := false
  generatedContent : List (String × ContentEntry) := []
  generatingState : List (String × GenFlags) := []
  batchJob : Option BatchJob := none
deriving DecidableEq, Repr

/-- setGeneratingState update for one prompt's video flag, spreading the
previous per-prompt flags as the source does. -/
def setGenVideoFlag (idea : String) (b : Bool) (s : IdeaState) : IdeaState :=
  let old := (alookup s.generatingState idea).getD {}
  { s with generatingState := aupsert s.generatingState idea { old with video := b } }

/-- setGeneratingState update for one prompt's image flag. -/
def setGenImageFlag (idea : String) (b : Bool) (s : IdeaState) : IdeaState :=
  let old := (alookup s.generatingState idea).getD {}
  { s with generatingState := aupsert s.generatingState idea { old with image := b } }

/-- setGeneratedContent update storing a prompt's video URL. -/
def setContentVideo (idea url : String) (s : IdeaState) : IdeaState :=
  let old := (alookup s.generatedContent idea).getD {}
  { s with generatedContent := aupsert s.generatedContent idea { old with video := some url } }

/-- setGeneratedContent update storing a prompt's image URL. -/
def setContentImage (idea url : String) (s : IdeaState) : IdeaState :=
  let old := (alookup s.generatedContent idea).getD {}
  { s with generatedContent := aupsert s.generatedContent idea { old with image := some url } }

/-- setBatchJob functional update writing the running progress counter of
the sequential video batch (a no-op when the job is already cleared). -/
def setJobProgress (p : Nat) (s : IdeaState) : IdeaState :=
  { s with batchJob := s.batchJob.map (fun j => { j with progress := p }) }

/-- setBatchJob functional update incrementing progress on one settlement
of the parallel image batch (a no-op when the job is already cleared). -/
def incJobProgress (s : IdeaState) : IdeaState :=
  { s with batchJob := s.batchJob.map (fun j => { j with progress := j.progress + 1 }) }

/-- Observable steps of the sequential video batch, in the order the
handler performs them. -/
inductive VEvent
  | start (idea : String)
  | succeeded (idea : String)
  | failed (idea : String)
  | progress (n : Nat)
  | flagOff (idea : String)
  | jobCleared
deriving DecidableEq, Repr

/-- handleSelectKey of IdeaGenerator: flips readiness and clears the error
message. -/
def handleSelectKey (s : IdeaState) : IdeaState :=
  { s with isKeyReady := true, error := "" }

/-- The state reached by handleGenerate before the service call: loading
set, error, ideas, content map, flags and batch job all cleared. -/
def handleGeneratePre (s : IdeaState) : IdeaState :=
  { s with isLoading := true, error := "", ideas := [], generatedContent := [], generatingState := [], batchJob := none }

/-- handleGenerate of IdeaGenerator: clear everything, call generateIdeas
(its outcome supplied by the oracle), then either store the ideas or store
the prefixed error message; loading is reset in the finally block. -/
def handleGenerate (t : String → String) (outcome : Except String (List String))
    (s : IdeaState) : IdeaState :=
  let s1 := handleGeneratePre s
  match outcome with
  | .ok l => { s1 with ideas := l, isLoading := false }
  | .error msg => { s1 with error := t "idea.error.apiFail" ++ " " ++ msg, isLoading := false }

/-- The generatingState value installed at the start of the parallel image
batch: built by reduce over the ideas from the empty object, spreading the
pre-batch flags of each idea and raising its image flag. -/
def initImageFlags (ideas : List String) (old : List (String × GenFlags)) :
    List (String × GenFlags) :=
  ideas.foldl (fun acc idea => aupsert acc idea { (alookup old idea).getD {} with image := true }) []

/-- Settlement of one parallel image promise: on success the then-callback
stores the image URL; on failure the catch-callback only logs; the
finally-callback increments the batch progress and lowers the prompt's
image flag. -/
def settleImage (outcome : String → Except String String) (s : IdeaState)
    (idea : String) : IdeaState :=
  let s1 := match outcome idea with
    | .ok url => setContentImage idea url s
    | .error _ => s
  setGenImageFlag idea false (incJobProgress s1)

/-- The state installed by handleGenerateAllImages before the fan-out:
error cleared, fresh image batch job, image flags raised. -/
def imageBatchInit (s : IdeaState) : IdeaState :=
  let job : BatchJob := { type := BatchType.images, progress := 0, total := s.ideas.length }
  { s with error := "", batchJob := some job, generatingState := initImageFlags s.ideas s.generatingState }

/-- handleGenerateAllImages of IdeaGenerator: gate on key readiness, then
fan out one generateImageFromPrompt call per idea; the oracle order lists
the ideas in the order their promises settle (the event-loop schedule);
after all have settled the job is cleared. -/
def handleGenerateAllImages (t : String → String) (outcome : String → Except String String)
    (order : List String) (s : IdeaState) : IdeaState :=
  if s.isKeyReady = false then { s with error := t "idea.error.apiKey" }
  else { (order.foldl (settleImage outcome) (imageBatchInit s)) with batchJob := none }

/-- The for-of loop body of handleGenerateAllVideos: raise the prompt's
video flag, run the full generate-and-poll pipeline (outcome supplied by
the oracle), store the URL or record the prefixed error, then in the
finally block bump the local progress counter into the job and lower the
flag; on failure break out of the loop.  Also returns the event trace. -/
def runVideoBatch (t : String → String) (outcome : String → Except String String) :
    List String → Nat → IdeaState → IdeaState × List VEvent
  | [], _, s => (s, [])
  | idea :: rest, p, s =>
    let s1 := setGenVideoFlag idea true s
    match outcome idea with
    | .ok url =>
      let s2 := setContentVideo idea url s1
      let s3 := setGenVideoFlag idea false (setJobProgress (p + 1) s2)
      let r := runVideoBatch t outcome rest (p + 1) s3
      (r.1, VEvent.start idea :: VEvent.succeeded idea :: VEvent.progress (p + 1)
        :: VEvent.flagOff idea :: r.2)
    | .error msg =>
      let s2 := { s1 with error := t "video.error.apiFail" ++ " " ++ msg }
      let s3 := setGenVideoFlag idea false (setJobProgress (p + 1) s2)
      (s3, [VEvent.start idea, VEvent.failed idea, VEvent.progress (p + 1),
        VEvent.flagOff idea])

/-- handleGenerateAllVideos of IdeaGenerator: gate on key readiness, clear
the error, install a fresh video batch job, run the sequential loop over
the ideas, and clear the job afterwards. -/
def handleGenerateAllVideos (t : String → String) (outcome : String → Except String String)
    (s : IdeaState) : IdeaState × List VEvent :=
  if s.isKeyReady = false then ({ s with error := t "idea.error.apiKey" }, [])
  else
    let job : BatchJob := { type := BatchType.videos, progress := 0, total := s.ideas.length }
    let s1 := { s with error := "", batchJob := some job }
    let r := runVideoBatch t outcome s.ideas 0 s1
    ({ r.1 with batchJob := none }, r.2 ++ [VEvent.jobCleared])

/-- The event block emitted by one successful iteration of the sequential
video loop, and the concatenation of such blocks for a run of successes
starting at progress p. -/
def okBlocks : List String → Nat → List VEvent
  | [], _ => []
  | idea :: rest, p =>
    VEvent.start idea :: VEvent.succeeded idea :: VEvent.progress (p + 1)
      :: VEvent.flagOff idea :: okBlocks rest (p + 1)

/-- Recognizer for the start event of an item of the video batch. -/
def isStartEv : VEvent → Bool
  | VEvent.start _ => true
  | _ => false

theorem okBlocks_count_start : ∀ (l : List String) (p : Nat),
    (okBlocks l p).countP isStartEv = l.length := by
  intro l
  induction l with
  | nil => intro p; simp [okBlocks]
  | cons i rest ih =>
    intro p
    simp [okBlocks, List.countP_cons, isStartEv, ih]

theorem okBlocks_progress_le : ∀ (l : List String) (p n : Nat),
    VEvent.progress n ∈ okBlocks l p → n ≤ p + l.length := by
  intro l
  induction l with
  | nil => intro p n h; simp [okBlocks] at h
  | cons i rest ih =>
    intro p n h
    simp only [okBlocks, List.mem_cons] at h
    rcases h with h | h | h | h | h
    · exact absurd h (by simp)
    · exact absurd h (by simp)
    · cases h
      simp only [List.length_cons]
      omega
    · exact absurd h (by simp)
    · have := ih (p + 1) n h
      simp only [List.length_cons]
      omega

end IdeaGenerator

namespace IdeaGenerator

theorem runVideoBatch_fail (t : String → String) (outcome : String → Except String String)
    (post : List String) (bad msg : String) (hbad : outcome bad = .error msg) :
    ∀ (pre : List String), (∀ i ∈ pre, ∃ u, outcome i = .ok u) →
    ∀ (p : Nat) (s : IdeaState),
      (runVideoBatch t outcome (pre ++ bad :: post) p s).1.error
          = t "video.error.apiFail" ++ " " ++ msg
      ∧ (runVideoBatch t outcome (pre ++ bad :: post) p s).2
          = okBlocks pre p ++ [VEvent.start bad, VEvent.failed bad,
              VEvent.progress (p + pre.length + 1), VEvent.flagOff bad] := by
  intro pre
  induction pre with
  | nil =>
    intro _ p s
    constructor
    · simp [runVideoBatch, hbad, setGenVideoFlag, setJobProgress]
    · simp [runVideoBatch, hbad, okBlocks]
  | cons i ps ih =>
    intro hpre p s
    obtain ⟨u, hu⟩ := hpre i (by simp)
    have hps : ∀ j ∈ ps, ∃ v, outcome j = .ok v := fun j hj => hpre j (by simp [hj])
    constructor
    · simp only [List.cons_append, runVideoBatch, hu]
      exact (ih hps (p + 1) _).1
    · simp only [List.cons_append, runVideoBatch, hu, List.append_eq]
      rw [(ih hps (p + 1) _).2]
      simp only [okBlocks, List.cons_append, List.length_cons]
      have harith : p + 1 + ps.length + 1 = p + (ps.length + 1) + 1 := by omega
      rw [harith]

end IdeaGenerator

open IdeaGenerator

/-- Claim C2: in the sequential video batch, when the pipeline for the
prompt at position k (1-based) is the first to fail, the prefixed error
message is recorded in the final state, no prompt after position k is ever
attempted (exactly k items are started), the progress counter reaches
exactly k (a progress event for k occurs and no larger one does), and the
batch job is cleared. -/
theorem video_batch_fail_fast
    (t : String → String) (outcome : String → Except String String) (s : IdeaState)
    (pre post : List String) (bad msg : String)
    (hready : s.isKeyReady = true)
    (hideas : s.ideas = pre ++ bad :: post)
    (hpre : ∀ i ∈ pre, ∃ u, outcome i = .ok u)
    (hbad : outcome bad = .error msg) :
    (handleGenerateAllVideos t outcome s).1.error = t "video.error.apiFail" ++ " " ++ msg
    ∧ (handleGenerateAllVideos t outcome s).1.batchJob = none
    ∧ (handleGenerateAllVideos t outcome s).2.countP isStartEv = pre.length + 1
    ∧ VEvent.progress (pre.length + 1) ∈ (handleGenerateAllVideos t outcome s).2
    ∧ ∀ n, VEvent.progress n ∈ (handleGenerateAllVideos t outcome s).2 →
        n ≤ pre.length + 1 := by
  have hcond : ¬(s.isKeyReady = false) := by simp [hready]
  obtain ⟨herr, htr⟩ := runVideoBatch_fail t outcome post bad msg hbad pre hpre 0
    { s with error := "", batchJob := some { type := BatchType.videos, progress := 0, total := s.ideas.length } }
  rw [← hideas] at herr htr
  simp only [handleGenerateAllVideos, if_neg hcond]
  refine ⟨?_, trivial, ?_, ?_, ?_⟩
  · simpa using herr
  · rw [htr]
    simp [List.countP_append, List.countP_cons, okBlocks_count_start, isStartEv]
  · rw [htr]
    simp [List.mem_append]
  · intro n hn
    rw [htr] at hn
    simp only [List.mem_append, List.mem_cons, List.mem_singleton] at hn
    rcases hn with (h | h) | h
    · have := okBlocks_progress_le pre 0 n h
      omega
    · rcases h with h | h | h | h
      · exact absurd h (by simp)
      · exact absurd h (by simp)
      · cases h; omega
      · exact absurd h (by simp)
    · exact absurd h (by simp)

theorem video_batch_fail_fast_witness :
    ((handleGenerateAllVideos (fun k => k)
        (fun i => if i = "b" then .error "E" else .ok ("v" ++ i))
        { isKeyReady := true, ideas := ["a", "b", "c"] }).1.error
      = "video.error.apiFail" ++ " " ++ "E")
    ∧ (handleGenerateAllVideos (fun k => k)
        (fun i => if i = "b" then .error "E" else .ok ("v" ++ i))
        { isKeyReady := true, ideas := ["a", "b", "c"] }).1.batchJob = none
    ∧ (handleGenerateAllVideos (fun k => k)
        (fun i => if i = "b" then .error "E" else .ok ("v" ++ i))
        { isKeyReady := true, ideas := ["a", "b", "c"] }).2.countP isStartEv = 2
    ∧ VEvent.progress 2 ∈ (handleGenerateAllVideos (fun k => k)
        (fun i => if i = "b" then .error "E" else .ok ("v" ++ i))
        { isKeyReady := true, ideas := ["a", "b", "c"] }).2
    ∧ ∀ n, VEvent.progress n ∈ (handleGenerateAllVideos (fun k => k)
        (fun i => if i = "b" then .error "E" else .ok ("v" ++ i))
        { isKeyReady := true, ideas := ["a", "b", "c"] }).2 → n ≤ 2 :=
  video_batch_fail_fast (fun k => k)
    (fun i => if i = "b" then .error "E" else .ok ("v" ++ i))
    { isKeyReady := true, ideas := ["a", "b", "c"] } ["a"] ["c"] "b" "E"
    rfl rfl
    (by intro i hi; simp only [List.mem_singleton] at hi; subst hi
        exact ⟨"va", by simp⟩)
    (by simp)

namespace IdeaGenerator

theorem runVideoBatch_ok_append (t : String → String) (outcome : String → Except String String)
    (l : List String) :
    ∀ (pre : List String), (∀ i ∈ pre, ∃ u, outcome i = .ok u) →
    ∀ (p : Nat) (s : IdeaState),
      ∃ s', (runVideoBatch t outcome (pre ++ l) p s).2
          = okBlocks pre p ++ (runVideoBatch t outcome l (p + pre.length) s').2 := by
  intro pre
  induction pre with
  | nil =>
    intro _ p s
    exact ⟨s, by simp [okBlocks]⟩
  | cons i ps ih =>
    intro hpre p s
    obtain ⟨u, hu⟩ := hpre i (by simp)
    have hps : ∀ j ∈ ps, ∃ v, outcome j = .ok v := fun j hj => hpre j (by simp [hj])
    obtain ⟨s', hs'⟩ := ih hps (p + 1)
      (setGenVideoFlag i false (setJobProgress (p + 1) (setContentVideo i u (setGenVideoFlag i true s))))
    refine ⟨s', ?_⟩
    simp only [List.cons_append, runVideoBatch, hu, List.append_eq]
    rw [hs']
    simp only [okBlocks, List.cons_append, List.length_cons]
    have harith : p + 1 + ps.length = p + (ps.length + 1) := by omega
    rw [harith]

theorem runVideoBatch_head_start (t : String → String) (outcome : String → Except String String)
    (y : String) (rest : List String) (p : Nat) (s : IdeaState) :
    ∃ tl, (runVideoBatch t outcome (y :: rest) p s).2 = VEvent.start y :: tl := by
  cases hy : outcome y with
  | ok u =>
    refine ⟨VEvent.succeeded y :: VEvent.progress (p + 1) :: VEvent.flagOff y ::
      (runVideoBatch t outcome rest (p + 1) (setGenVideoFlag y false (setJobProgress (p + 1)
        (setContentVideo y u (setGenVideoFlag y true s))))).2, ?_⟩
    simp [runVideoBatch, hy]
  | error m =>
    refine ⟨[VEvent.failed y, VEvent.progress (p + 1), VEvent.flagOff y], ?_⟩
    simp [runVideoBatch, hy]

theorem runVideoBatch_cons_ok_trace (t : String → String)
    (outcome : String → Except String String) (idea u : String) (rest : List String)
    (p : Nat) (s : IdeaState) (hu : outcome idea = .ok u) :
    (runVideoBatch t outcome (idea :: rest) p s).2
      = VEvent.start idea :: VEvent.succeeded idea :: VEvent.progress (p + 1)
          :: VEvent.flagOff idea
          :: (runVideoBatch t outcome rest (p + 1)
               (setGenVideoFlag idea false (setJobProgress (p + 1)
                 (setContentVideo idea u (setGenVideoFlag idea true s))))).2 := by
  simp [runVideoBatch, hu]

end IdeaGenerator

/-- Claim C6: in the sequential video batch, for adjacent prompts x and y,
the pipeline for y is never started until the pipeline for x has fully
settled: whenever y's item is reached, the trace around it is exactly
start of x, settlement of x, the progress increment for x's position, the
reset of x's generating flag, and only then the start of y. -/
theorem video_batch_sequential_ordering
    (t : String → String) (outcome : String → Except String String) (s : IdeaState)
    (pre post : List String) (x y u : String)
    (hready : s.isKeyReady = true)
    (hideas : s.ideas = pre ++ x :: y :: post)
    (hpre : ∀ i ∈ pre, ∃ v, outcome i = .ok v)
    (hx : outcome x = .ok u) :
    ∃ t1 t2, (handleGenerateAllVideos t outcome s).2
      = t1 ++ VEvent.start x :: VEvent.succeeded x :: VEvent.progress (pre.length + 1)
          :: VEvent.flagOff x :: VEvent.start y :: t2 := by
  have hcond : ¬(s.isKeyReady = false) := by simp [hready]
  obtain ⟨s', hs'⟩ := runVideoBatch_ok_append t outcome (x :: y :: post) pre hpre 0
    { s with error := "", batchJob := some { type := BatchType.videos, progress := 0, total := s.ideas.length } }
  rw [← hideas] at hs'
  obtain ⟨tl, htl⟩ := runVideoBatch_head_start t outcome y post (pre.length + 1)
    (setGenVideoFlag x false (setJobProgress (pre.length + 1) (setContentVideo x u (setGenVideoFlag x true s'))))
  simp only [handleGenerateAllVideos, if_neg hcond]
  refine ⟨okBlocks pre 0, tl ++ [VEvent.jobCleared], ?_⟩
  rw [hs']
  simp only [Nat.zero_add]
  rw [runVideoBatch_cons_ok_trace t outcome x u (y :: post) pre.length _ hx]
  rw [htl]
  simp

theorem video_batch_sequential_ordering_witness :
    ∃ t1 t2, (handleGenerateAllVideos (fun k => k)
        (fun i => if i = "b" then .error "E" else .ok ("v" ++ i))
        { isKeyReady := true, ideas := ["a", "b", "c"] }).2
      = t1 ++ VEvent.start "a" :: VEvent.succeeded "a" :: VEvent.progress 1
          :: VEvent.flagOff "a" :: VEvent.start "b" :: t2 :=
  video_batch_sequential_ordering (fun k => k)
    (fun i => if i = "b" then .error "E" else .ok ("v" ++ i))
    { isKeyReady := true, ideas := ["a", "b", "c"] } [] ["c"] "a" "b" "va"
    rfl rfl (by intro i hi; simp at hi) (by simp)

namespace IdeaGenerator

theorem settle_foldl_batchJob (outcome : String → Except String String) :
    ∀ (l : List String) (s : IdeaState),
      (l.foldl (settleImage outcome) s).batchJob
        = s.batchJob.map (fun j => { j with progress := j.progress + l.length }) := by
  intro l
  induction l with
  | nil => intro s; cases hb : s.batchJob <;> simp [hb]
  | cons i rest ih =>
    intro s
    rw [List.foldl_cons, ih]
    have hstep : (settleImage outcome s i).batchJob
        = s.batchJob.map (fun j => { j with progress := j.progress + 1 }) := by
      cases ho : outcome i <;>
        simp [settleImage, ho, setContentImage, setGenImageFlag, incJobProgress]
    rw [hstep]
    cases hb : s.batchJob with
    | none => simp
    | some j =>
      simp only [Option.map_some', List.length_cons]
      have h : j.progress + 1 + rest.length = j.progress + (rest.length + 1) := by omega
      rw [h]

theorem settle_foldl_content_not_mem (outcome : String → Except String String) (i : String) :
    ∀ (l : List String) (s : IdeaState), i ∉ l →
      alookup (l.foldl (settleImage outcome) s).generatedContent i
        = alookup s.generatedContent i := by
  intro l
  induction l with
  | nil => intro s _; rfl
  | cons j rest ih =>
    intro s hmem
    have hij : i ≠ j := fun h => hmem (by simp [h])
    have hrest : i ∉ rest := fun h => hmem (by simp [h])
    rw [List.foldl_cons, ih _ hrest]
    cases ho : outcome j with
    | ok url =>
      simp [settleImage, ho, setContentImage, setGenImageFlag, incJobProgress,
        alookup_aupsert_ne _ _ _ _ hij]
    | error m => simp [settleImage, ho, setGenImageFlag, incJobProgress]

theorem settle_foldl_content_ok (outcome : String → Except String String) (i u : String)
    (hu : outcome i = .ok u) :
    ∀ (l : List String) (s : IdeaState), i ∈ l →
      ∃ e, alookup (l.foldl (settleImage outcome) s).generatedContent i = some e
        ∧ e.image = some u := by
  intro l
  induction l with
  | nil => intro s h; exact absurd h (by simp)
  | cons j rest ih =>
    intro s hmem
    by_cases hir : i ∈ rest
    · rw [List.foldl_cons]
      exact ih _ hir
    · have hij : i = j := by
        rcases List.mem_cons.1 hmem with h | h
        · exact h
        · exact absurd h hir
      subst hij
      rw [List.foldl_cons, settle_foldl_content_not_mem outcome i rest _ hir]
      refine ⟨{ (alookup s.generatedContent i).getD {} with image := some u }, ?_, rfl⟩
      simp [settleImage, hu, setContentImage, setGenImageFlag, incJobProgress,
        alookup_aupsert_self]

theorem settle_foldl_content_err (outcome : String → Except String String) (i msg : String)
    (hi : outcome i = .error msg) :
    ∀ (l : List String) (s : IdeaState),
      alookup (l.foldl (settleImage outcome) s).generatedContent i
        = alookup s.generatedContent i := by
  intro l
  induction l with
  | nil => intro s; rfl
  | cons j rest ih =>
    intro s
    rw [List.foldl_cons, ih]
    by_cases hji : j = i
    · subst hji
      simp [settleImage, hi, setGenImageFlag, incJobProgress]
    · cases ho : outcome j with
      | ok url =>
        simp [settleImage, ho, setContentImage, setGenImageFlag, incJobProgress,
          alookup_aupsert_ne _ _ _ _ (fun hh => hji hh.symm)]
      | error m2 => simp [settleImage, ho, setGenImageFlag, incJobProgress]

end IdeaGenerator

/-- Claim C3: in the parallel image batch, under any settlement order of
the prompts (any event-loop schedule), per-prompt failures are isolated:
after every prefix of settlements the job progress equals the number of
settlements so far (one increment per settlement), after all settlements
it equals the number of prompts, every successful prompt's image is
retained in the final content map, every failed prompt's image slot is
empty (starting from an empty content map), and the batch job is cleared
at the end. -/
theorem image_batch_failure_isolation
    (t : String → String) (outcome : String → Except String String)
    (order : List String) (s : IdeaState)
    (hready : s.isKeyReady = true)
    (hperm : order.Perm s.ideas)
    (hcontent : s.generatedContent = []) :
    (handleGenerateAllImages t outcome order s).batchJob = none
    ∧ (∀ pref suf, order = pref ++ suf →
        (pref.foldl (settleImage outcome) (imageBatchInit s)).batchJob
          = some { type := BatchType.images, progress := pref.length, total := s.ideas.length })
    ∧ (order.foldl (settleImage outcome) (imageBatchInit s)).batchJob
        = some { type := BatchType.images, progress := s.ideas.length, total := s.ideas.length }
    ∧ (∀ i u, i ∈ order → outcome i = .ok u →
        ∃ e, alookup (handleGenerateAllImages t outcome order s).generatedContent i = some e
          ∧ e.image = some u)
    ∧ (∀ i msg, i ∈ order → outcome i = .error msg →
        alookup (handleGenerateAllImages t outcome order s).generatedContent i = none) := by
  have hcond : ¬(s.isKeyReady = false) := by simp [hready]
  refine ⟨?_, ?_, ?_, ?_, ?_⟩
  · simp [handleGenerateAllImages, if_neg hcond]
  · intro pref suf _
    rw [settle_foldl_batchJob]
    simp [imageBatchInit]
  · rw [settle_foldl_batchJob]
    simp [imageBatchInit, hperm.length_eq]
  · intro i u hi hu
    simp only [handleGenerateAllImages, if_neg hcond]
    exact settle_foldl_content_ok outcome i u hu order (imageBatchInit s) hi
  · intro i msg _ hmsg
    simp only [handleGenerateAllImages, if_neg hcond]
    rw [settle_foldl_content_err outcome i msg hmsg]
    simp [imageBatchInit, hcontent, alookup]

theorem image_batch_failure_isolation_witness :
    ((handleGenerateAllImages (fun k => k)
        (fun i => if i = "b" then .error "E" else .ok ("img" ++ i)) ["b", "c", "a"]
        { isKeyReady := true, ideas := ["a", "b", "c"] }).batchJob = none)
    ∧ ((["b", "c"].foldl (settleImage (fun i => if i = "b" then .error "E" else .ok ("img" ++ i)))
        (imageBatchInit { isKeyReady := true, ideas := ["a", "b", "c"] })).batchJob
        = some { type := BatchType.images, progress := 2, total := 3 })
    ∧ (∃ e, alookup (handleGenerateAllImages (fun k => k)
        (fun i => if i = "b" then .error "E" else .ok ("img" ++ i)) ["b", "c", "a"]
        { isKeyReady := true, ideas := ["a", "b", "c"] }).generatedContent "a" = some e
          ∧ e.image = some "imga")
    ∧ (alookup (handleGenerateAllImages (fun k => k)
        (fun i => if i = "b" then .error "E" else .ok ("img" ++ i)) ["b", "c", "a"]
        { isKeyReady := true, ideas := ["a", "b", "c"] }).generatedContent "b" = none) := by
  have h := image_batch_failure_isolation (fun k => k)
    (fun i => if i = "b" then .error "E" else .ok ("img" ++ i)) ["b", "c", "a"]
    { isKeyReady := true, ideas := ["a", "b", "c"] } rfl (by decide) rfl
  exact ⟨h.1, h.2.1 ["b", "c"] ["a"] rfl, h.2.2.2.1 "a" "imga" (by simp) (by simp),
    h.2.2.2.2 "b" "E" (by simp) (by simp)⟩

namespace ImageGenerator

/-- One entry of the ImageGenerator history list (ImageGenerator.tsx):
result locator, originating prompt, aspect ratio used. -/
structure ImageHistoryItem where
  imageUrl : String
  prompt : String
  aspectRatio : String
deriving DecidableEq, Repr

/-- Fixed capacity of the image history list (ImageGenerator.tsx line 19). -/
def MAX_HISTORY_ITEMS : Nat := 6

/-- The setHistory updater run by generate on success (ImageGenerator.tsx
lines 130-138): new item first, previous entries with the same result
locator dropped, then the list truncated to the fixed capacity. -/
def insertHistory (item : ImageHistoryItem) (prev : List ImageHistoryItem) :
    List ImageHistoryItem :=
  (item :: prev.filter (fun it => it.imageUrl != item.imageUrl)).take MAX_HISTORY_ITEMS

/-- The React state of the ImageGenerator component (the fields the
embedded handler reads or writes). -/
structure ImageState where
  isKeyReady : Bool := false
  error : String := ""
  prompt : String := ""
  aspectRatio : String := "1:1"
  imageUrl : Option String := none
  history : List ImageHistoryItem := []
deriving DecidableEq, Repr

/-- handleSelectKey of ImageGenerator: flips readiness and clears the
error message. -/
def handleSelectKey (s : ImageState) : ImageState :=
  { s with isKeyReady := true, error := "" }

end ImageGenerator

namespace VideoCreator

/-- The React state of the VideoCreator component (the fields the embedded
handler reads or writes). -/
structure VideoState where
  isKeyReady : Bool := false
  error : String := ""
  allowHtmlError : Bool := false
  prompt : String := ""
  videoUrl : Option String := none
  isLoading : Bool := false
deriving DecidableEq, Repr

/-- handleSelectKey of VideoCreator: opens the key selector and flips
readiness; unlike the IdeaGenerator and ImageGenerator versions it does
not clear the error message (VideoCreator.tsx lines 88-91 contain no
error update). -/
def handleSelectKey (s : VideoState) : VideoState :=
  { s with isKeyReady := true }

end VideoCreator

/-- Claim C7: a history insertion always yields a list of length at most
the fixed capacity 6, keeps the newest entry first, and the inserted
entry's result locator appears in exactly one entry afterwards (in
particular when it already appeared in the list). -/
theorem insertHistory_bounded_and_dedup (item : ImageGenerator.ImageHistoryItem)
    (prev : List ImageGenerator.ImageHistoryItem) :
    (ImageGenerator.insertHistory item prev).length ≤ ImageGenerator.MAX_HISTORY_ITEMS
    ∧ (ImageGenerator.insertHistory item prev).head? = some item
    ∧ (ImageGenerator.insertHistory item prev).countP
        (fun it => it.imageUrl == item.imageUrl) = 1 := by
  refine ⟨List.length_take_le _ _, rfl, ?_⟩
  have h : ImageGenerator.insertHistory item prev
      = item :: (prev.filter (fun it => it.imageUrl != item.imageUrl)).take 5 := rfl
  rw [h, List.countP_cons]
  have hz : List.countP (fun it => it.imageUrl == item.imageUrl)
      ((prev.filter (fun it => it.imageUrl != item.imageUrl)).take 5) = 0 := by
    rw [List.countP_eq_zero]
    intro a ha
    have haf := List.take_subset _ _ ha
    have hq := List.of_mem_filter haf
    simpa using hq
  simp [hz]

/-- Claim C8 counterexample: in VideoCreator, handleSelectKey flips the
readiness flag but leaves a prior non-empty error message in place, so
the select-credential operation does not clear the error in every
API-key-gated component. -/
theorem videoCreator_selectKey_keeps_error :
    (VideoCreator.handleSelectKey { error := "previous failure" }).isKeyReady = true
    ∧ (VideoCreator.handleSelectKey { error := "previous failure" }).error = "previous failure"
    ∧ "previous failure" ≠ "" := by
  refine ⟨rfl, rfl, by decide⟩

/-- Claim C8 (amended): in IdeaGenerator and ImageGenerator, calling
handleSelectKey sets the readiness flag to true and clears any prior
error message, in every prior state; in VideoCreator it sets the
readiness flag to true but leaves the error message unchanged. -/
theorem handleSelectKey_readiness (si : IdeaGenerator.IdeaState)
    (sm : ImageGenerator.ImageState) (sv : VideoCreator.VideoState) :
    (IdeaGenerator.handleSelectKey si).isKeyReady = true
    ∧ (IdeaGenerator.handleSelectKey si).error = ""
    ∧ (ImageGenerator.handleSelectKey sm).isKeyReady = true
    ∧ (ImageGenerator.handleSelectKey sm).error = ""
    ∧ (VideoCreator.handleSelectKey sv).isKeyReady = true
    ∧ (VideoCreator.handleSelectKey sv).error = sv.error :=
  ⟨rfl, rfl, rfl, rfl, rfl, rfl⟩

/-- Claim C10: handleGenerate clears the ideas list, the generated
content map, the per-item generating flags and any active batch job
before invoking the service (the pre-invocation state), and on a service
failure the cleared state is not restored: the final state has an empty
ideas list, empty maps, no batch job, only the prefixed error message
set, and loading reset. -/
theorem handleGenerate_clears_state (t : String → String)
    (outcome : Except String (List String)) (s : IdeaGenerator.IdeaState) (msg : String)
    (herr : outcome = .error msg) :
    (IdeaGenerator.handleGeneratePre s).ideas = []
    ∧ (IdeaGenerator.handleGeneratePre s).generatedContent = []
    ∧ (IdeaGenerator.handleGeneratePre s).generatingState = []
    ∧ (IdeaGenerator.handleGeneratePre s).batchJob = none
    ∧ (IdeaGenerator.handleGeneratePre s).error = ""
    ∧ (IdeaGenerator.handleGenerate t outcome s).ideas = []
    ∧ (IdeaGenerator.handleGenerate t outcome s).generatedContent = []
    ∧ (IdeaGenerator.handleGenerate t outcome s).generatingState = []
    ∧ (IdeaGenerator.handleGenerate t outcome s).batchJob = none
    ∧ (IdeaGenerator.handleGenerate t outcome s).error = t "idea.error.apiFail" ++ " " ++ msg
    ∧ (IdeaGenerator.handleGenerate t outcome s).isLoading = false := by
  subst herr
  exact ⟨rfl, rfl, rfl, rfl, rfl, rfl, rfl, rfl, rfl, rfl, rfl⟩

theorem handleGenerate_clears_state_witness :
    (IdeaGenerator.handleGeneratePre { isKeyReady := true, ideas := ["old"], error := "stale" }).ideas = []
    ∧ (IdeaGenerator.handleGeneratePre { isKeyReady := true, ideas := ["old"], error := "stale" }).generatedContent = []
    ∧ (IdeaGenerator.handleGeneratePre { isKeyReady := true, ideas := ["old"], error := "stale" }).generatingState = []
    ∧ (IdeaGenerator.handleGeneratePre { isKeyReady := true, ideas := ["old"], error := "stale" }).batchJob = none
    ∧ (IdeaGenerator.handleGeneratePre { isKeyReady := true, ideas := ["old"], error := "stale" }).error = ""
    ∧ (IdeaGenerator.handleGenerate (fun k => k) (.error "boom")
        { isKeyReady := true, ideas := ["old"], error := "stale" }).ideas = []
    ∧ (IdeaGenerator.handleGenerate (fun k => k) (.error "boom")
        { isKeyReady := true, ideas := ["old"], error := "stale" }).generatedContent = []
    ∧ (IdeaGenerator.handleGenerate (fun k => k) (.error "boom")
        { isKeyReady := true, ideas := ["old"], error := "stale" }).generatingState = []
    ∧ (IdeaGenerator.handleGenerate (fun k => k) (.error "boom")
        { isKeyReady := true, ideas := ["old"], error := "stale" }).batchJob = none
    ∧ (IdeaGenerator.handleGenerate (fun k => k) (.error "boom")
        { isKeyReady := true, ideas := ["old"], error := "stale" }).error
        = (fun k => k) "idea.error.apiFail" ++ " " ++ "boom"
    ∧ (IdeaGenerator.handleGenerate (fun k => k) (.error "boom")
        { isKeyReady := true, ideas := ["old"], error := "stale" }).isLoading = false :=
  handleGenerate_clears_state (fun k => k) (.error "boom")
    { isKeyReady := true, ideas := ["old"], error := "stale" } "boom" rfl
